import Mathlib

/-!
Verification development for the spectrum-analyzer hardware abstraction layer
consisting of src/FSUP50.py (the R&S FSUP model driver) and src/ESA.py (the
facade that dispatches to a model driver chosen by the `devicedriver`
configuration key).

The repository imports its Instrument base class, its validators
(`strict_range`, `truncated_range`) and the N9030A driver from
`sytpy.devices.General` / `sytpy.devices.ESA.N9030A`, which are not part of
the two source files; those parts are modelled from the specification and
are marked `Modelled from the spec:` in their doc comments.  Everything else
is a direct shallow embedding of the Python source: machine floats are
modelled as rationals, Python exceptions as an error type, and transport
traffic as an explicit trace of sent commands.
-/

namespace Sytpy

/-- Python exception kinds arising in the embedded code.  The specification's
error taxonomy names (ValidationError, ParseError, ...) stand for the failure
raised at the corresponding site; `excImportError` models the generic
`Exception("ImportError")` raised by the blanket handler in `ESA.__init__`. -/
inductive PyError where
  | validationError
  | communicationError
  | parseError
  | typeError
  | indexError
  | notImplementedError
  | excImportError
  deriving DecidableEq, Repr

/-- Python runtime values that cross the embedded interfaces: `none` for the
Python `None`, numbers, strings, and bound-method objects (the value produced
by attribute access on an instance without call parentheses). -/
inductive PyValue where
  | none
  | num (q : ℚ)
  | str (s : String)
  | boundMethod (cls : String) (meth : String)
  deriving DecidableEq, Repr

/-- Whether a Python value is a bound-method object (a callable), as opposed
to a data value such as a number. -/
def PyValue.isBoundMethod : PyValue → Bool
  | .boundMethod _ _ => true
  | _ => false

/-! Command-string constants from src/FSUP50.py, lines 9-25. -/

def FSUP50_RESET : String := "*RST\n"
def FSUP50_WAIT_TO_COMPLETE : String := "*OPC?\n"
def FSUP50_START_FREQUENCY_SET : String := "FREQ:STAR %f"
def FSUP50_START_FREQUENCY_GET : String := "FREQ:STAR?"
def FSUP50_STOP_FREQUENCY_SET : String := "FREQ:STOP %f"
def FSUP50_STOP_FREQUENCY_GET : String := "FREQ:STOP?"
def FSUP50_VIDEO_BW_SET : String := "BAND:VID %fHz"
def FSUP50_VIDEO_BW_GET : String := "BAND:VID?"
def FSUP50_RESOLUTION_BW_SET : String := "BAND:AUTO OFF"
def FSUP50_RESOLUTION_BW_GET : String := "BAND?"
def FSUP50_CENTER_FREQUENCY_SET : String := "FREQ:CENT %f"
def FSUP50_SPAN_FREQUENCY_SET : String := "FREQ:SPAN %f"
def FSUP50_MARKER_FREQUENCY_GET : String := "CALC:MARK:COUN ON"
def FSUP50_MARKER_AMPLITUDE_GET : String := "CALC:MARK:Y?"
def FSUP50_SWEEPTIME_GET : String := "SWE:TIME?"
def FSUP50_SWEEP_SINGLE_SET : String := "INIT:CONT OFF"
def FSUP50_MOVE_MARKER_PEAK : String := "CALC:MARK:MAX"

/-- A command line sent over the transport: either a literal string written
verbatim, or a template containing a C-style `%f` placeholder together with
the numeric value substituted into it (the rendered text carries the value
to six decimal places). -/
inductive SentCmd where
  | raw (s : String)
  | fmtF (template : String) (value : ℚ)
  deriving DecidableEq, Repr

/-- The value actually encoded by C-style `%f` formatting of `q`: the decimal
rendering has six fraction digits, so the encoded number is `q` rounded to
six decimal places. -/
def fmt6 (q : ℚ) : ℚ := ((round (q * 1000000) : ℤ) : ℚ) / 1000000

/-- Modelled from the spec: the mock transport used by the testable
properties, which records every command written and echoes back whatever
numeric value was last set (a query returns the value carried by the most
recent `%f`-formatted write). -/
structure MockEchoTransport where
  lastSet : Option ℚ
  writes : List SentCmd
  deriving DecidableEq, Repr

/-- A fresh mock transport: nothing set yet, empty write trace. -/
def MockEchoTransport.start : MockEchoTransport := ⟨Option.none, []⟩

/-- Writing a command line: it is appended to the trace, and a
`%f`-formatted set command updates the echoed value (to the value the
rendered six-decimal text encodes). -/
def MockEchoTransport.write (t : MockEchoTransport) (c : SentCmd) : MockEchoTransport :=
  { lastSet :=
      match c with
      | .fmtF _ v => some (fmt6 v)
      | .raw _ => t.lastSet
    writes := t.writes ++ [c] }

/-- Asking (write the query line, read one reply line): the query is
appended to the trace and the mock echoes the last set value as the reply,
`Option.none` standing for a reply that parses as no number. -/
def MockEchoTransport.ask (t : MockEchoTransport) (q : String) :
    Option ℚ × MockEchoTransport :=
  (t.lastSet, { t with writes := t.writes ++ [.raw q] })

/-- Modelled from the spec: the `strict_range` validator from
`sytpy.devices.General.validators` (imported by src/FSUP50.py but not
present under src/).  It fails if the value lies outside
`[min(range), max(range)]` and passes the value through unchanged
otherwise; an empty range means no constraint. -/
def strict_range (value : ℚ) (values : List ℚ) : Except PyError ℚ :=
  match values with
  | [] => .ok value
  | v0 :: rest =>
    let lo := rest.foldl min v0
    let hi := rest.foldl max v0
    if lo ≤ value ∧ value ≤ hi then .ok value else .error .validationError

/-- Modelled from the spec: the property descriptor built by
`Instrument.control` (from `sytpy.devices.General.Instrument`, not present
under src/): a get-command template, a set-command template with a `%f`
placeholder, a validator, the declared legal values, and whether a
completion-wait handshake follows each set. -/
structure Control where
  get_command : String
  set_command : String
  validator : ℚ → List ℚ → Except PyError ℚ
  values : List ℚ
  set_wait : Bool

/-- Modelled from the spec: the descriptor set path.  The value is first
validated; on failure the error propagates and no command is sent.  On
success the set template is formatted with the validated value and written;
if `set_wait` is true a completion-wait query (`*OPC?`) follows before
returning. -/
def Control.set (c : Control) (t : MockEchoTransport) (v : ℚ) :
    MockEchoTransport × Except PyError Unit :=
  match c.validator v c.values with
  | .error e => (t, .error e)
  | .ok v2 =>
    let t1 := t.write (.fmtF c.set_command v2)
    let t2 := if c.set_wait then (t1.ask FSUP50_WAIT_TO_COMPLETE).2 else t1
    (t2, .ok ())

/-- Modelled from the spec: the descriptor get path.  The literal get
command is asked and the reply parsed as a number; an unparseable reply is
a parse failure. -/
def Control.get (c : Control) (t : MockEchoTransport) :
    MockEchoTransport × Except PyError ℚ :=
  match t.ask c.get_command with
  | (some q, t2) => (t2, .ok q)
  | (Option.none, t2) => (t2, .error .parseError)

namespace FSUP50

/-- The `start_frequency` property of src/FSUP50.py (lines 71-95):
get command `FREQ:STAR?`, set command `FREQ:STAR %f`, validator
`strict_range` over `[0, 50e9]`, with `set_wait=True`. -/
def start_frequency : Control :=
  { get_command := FSUP50_START_FREQUENCY_GET
    set_command := FSUP50_START_FREQUENCY_SET
    validator := strict_range
    values := [0, 50000000000]
    set_wait := true }

/-- src/FSUP50.py `set_start_frequency` (lines 96-97): assigns the
`start_frequency` property, which runs the descriptor set path. -/
def set_start_frequency (t : MockEchoTransport) (freq : ℚ) :
    MockEchoTransport × Except PyError Unit :=
  start_frequency.set t freq

/-- src/FSUP50.py `get_start_frequency` (lines 100-101): reads the
`start_frequency` property, which runs the descriptor get path. -/
def get_start_frequency (t : MockEchoTransport) :
    MockEchoTransport × Except PyError ℚ :=
  start_frequency.get t

/-- The `stop_frequency` property of src/FSUP50.py (lines 104-117):
`strict_range` with an empty `values` list (no constraint declared),
`set_wait=True`. -/
def stop_frequency : Control :=
  { get_command := FSUP50_STOP_FREQUENCY_GET
    set_command := FSUP50_STOP_FREQUENCY_SET
    validator := strict_range
    values := []
    set_wait := true }

/-- The `video_bw` property of src/FSUP50.py (lines 127-142):
`strict_range` over `[1, 10]`, `set_wait=True`. -/
def video_bw : Control :=
  { get_command := FSUP50_VIDEO_BW_GET
    set_command := FSUP50_VIDEO_BW_SET
    validator := strict_range
    values := [1, 10]
    set_wait := true }

/-- The `resolution_bw` property of src/FSUP50.py (lines 151-162):
`strict_range` over `[10, 50]`, `set_wait=True`. -/
def resolution_bw : Control :=
  { get_command := FSUP50_RESOLUTION_BW_GET
    set_command := FSUP50_RESOLUTION_BW_SET
    validator := strict_range
    values := [10, 50]
    set_wait := true }

end FSUP50

/-- The Python standard library `time.sleep`: accepts a numeric duration;
a non-numeric argument (such as a string) raises `TypeError`. -/
def sleep (x : PyValue) : Except PyError Unit :=
  match x with
  | .num _ => .ok ()
  | _ => .error .typeError

namespace FSUP50

/-- src/FSUP50.py `wait_to_complete` (lines 62-69): writes the `*OPC?`
command string with `self.write` (it does not ask for a reply) and ends
with a bare `return`, so it returns `None`. -/
def wait_to_complete (t : MockEchoTransport) :
    MockEchoTransport × Except PyError PyValue :=
  (t.write (.raw FSUP50_WAIT_TO_COMPLETE), .ok .none)

/-- src/FSUP50.py `rst` (lines 47-60): writes the reset command, then calls
`sleep(FSUP50_WAIT_TO_COMPLETE)` — passing the `*OPC?` command *string* as
the sleep duration — and only afterwards would call `wait_to_complete` and
return its value. -/
def rst (t : MockEchoTransport) : MockEchoTransport × Except PyError PyValue :=
  let t1 := t.write (.raw FSUP50_RESET)
  match sleep (.str FSUP50_WAIT_TO_COMPLETE) with
  | .error e => (t1, .error e)
  | .ok _ => wait_to_complete t1

/-- src/FSUP50.py `set_center_frequency` (lines 172-179): formats the
center-frequency template with the raw value and writes it (no validator). -/
def set_center_frequency (t : MockEchoTransport) (freq : ℚ) : MockEchoTransport :=
  t.write (.fmtF FSUP50_CENTER_FREQUENCY_SET freq)

/-- src/FSUP50.py `set_span_frequency` (lines 181-188): formats the span
template with the raw value and writes it (no validator). -/
def set_span_frequency (t : MockEchoTransport) (span : ℚ) : MockEchoTransport :=
  t.write (.fmtF FSUP50_SPAN_FREQUENCY_SET span)

/-- src/FSUP50.py `get_marker_frequency` (lines 190-196): asks the
marker-frequency command and returns the raw reply. -/
def get_marker_frequency (t : MockEchoTransport) :
    Option ℚ × MockEchoTransport :=
  t.ask FSUP50_MARKER_FREQUENCY_GET

/-- src/FSUP50.py `get_marker_amplitude` (lines 198-204): asks the
marker-amplitude command (no marker argument in its signature) and returns
the raw reply. -/
def get_marker_amplitude (t : MockEchoTransport) :
    Option ℚ × MockEchoTransport :=
  t.ask FSUP50_MARKER_AMPLITUDE_GET

/-- src/FSUP50.py `get_sweeptime` (lines 206-212): asks the sweep-time
command and returns the raw reply. -/
def get_sweeptime (t : MockEchoTransport) : Option ℚ × MockEchoTransport :=
  t.ask FSUP50_SWEEPTIME_GET

/-- src/FSUP50.py `set_move_marker_peak` (lines 223-230): writes the
marker-to-peak command. -/
def set_move_marker_peak (t : MockEchoTransport) : MockEchoTransport :=
  t.write (.raw FSUP50_MOVE_MARKER_PEAK)

/-- Body of src/FSUP50.py `set_sweep_single` (lines 214-221): writes the
single-sweep command.  The surrounding signature `def set_sweep_single(self)`
declares no parameter besides `self`. -/
def set_sweep_single_body (t : MockEchoTransport) :
    MockEchoTransport × Except PyError PyValue :=
  (t.write (.raw FSUP50_SWEEP_SINGLE_SET), .ok .none)

end FSUP50

/-- Python positional-call semantics: calling a function whose signature
declares `declared` parameters with `given` positional arguments raises
`TypeError` before the body runs when the counts differ. -/
def callPositional (declared given : ℕ)
    (body : MockEchoTransport → MockEchoTransport × Except PyError PyValue)
    (t : MockEchoTransport) : MockEchoTransport × Except PyError PyValue :=
  if given = declared then body t else (t, .error .typeError)

/-! Identity parsing (src/FSUP50.py `__init__`, lines 33-45). -/

/-- Python `str.split` with the single-character separator `,` on the list
of characters: every comma starts a new field, and the empty string splits
to one empty field. -/
def splitCommaAux : List Char → List (List Char)
  | [] => [[]]
  | c :: rest =>
    match splitCommaAux rest with
    | [] => [[c]]
    | h :: tl => if c = ',' then [] :: h :: tl else (c :: h) :: tl

/-- Python `s.split(",")` on strings. -/
def pySplit (s : String) : List String :=
  (splitCommaAux s.data).map (fun l => String.mk l)

/-- The identity fields an FSUP50 instance stores after construction. -/
structure FSUPHandle where
  vendor : String
  model : String
  serial : String
  fw : String
  deriving DecidableEq, Repr

namespace FSUP50

/-- src/FSUP50.py `__init__` (lines 33-45): splits the identity reply
`self.id` on commas and stores, in source order, `model = fields[1]`,
`vendor = fields[0]`, `serial = fields[2]`, `fw = fields[3]`.  A reply with
too few fields makes the list indexing raise (`IndexError`), aborting
construction — the construction-time failure the spec calls `ParseError`.
The Instrument base that issues the identity query once and supplies
`self.id` is not under src/ and is modelled from the spec. -/
def driverInit (idReply : String) : Except PyError FSUPHandle :=
  let fields := pySplit idReply
  match fields.get? 1 with
  | Option.none => .error .indexError
  | some model =>
    match fields.get? 0 with
    | Option.none => .error .indexError
    | some vendor =>
      match fields.get? 2 with
      | Option.none => .error .indexError
      | some serial =>
        match fields.get? 3 with
        | Option.none => .error .indexError
        | some fw => .ok ⟨vendor, model, serial, fw⟩

end FSUP50

/-! The ESA facade (src/ESA.py). -/

/-- The two model drivers src/ESA.py can instantiate. -/
inductive DriverKind where
  | fsup50
  | n9030a
  deriving DecidableEq, Repr

/-- The `devicedriver` configuration string naming each driver. -/
def driverName : DriverKind → String
  | .fsup50 => "FSUP50"
  | .n9030a => "N9030A"

/-- A constructed driver handle held at `self.devh`. -/
inductive DriverHandle where
  | fsup (h : FSUPHandle)
  | n9030 (h : FSUPHandle)
  deriving DecidableEq, Repr

/-- The facade state after a successful construction: the configuration
string, the `last_measurement` mapping (initialised empty at
src/ESA.py line 70), and the driver handle. -/
structure ESAState where
  devicedriver : String
  last_measurement : List (String × PyValue)
  devh : DriverHandle
  deriving DecidableEq, Repr

namespace ESA

/-- The try-block of src/ESA.py `__init__` (lines 75-90): dispatch on
`params["devicedriver"]`.  Driver construction is abstracted by its outcome
(the transport commands it sent and its result); the unrecognized-name
branch raises `NotImplementedError` without constructing any driver. -/
def initInner (devicedriver : String)
    (ctorFS ctorN9 : List SentCmd × Except PyError DriverHandle) :
    List SentCmd × Except PyError ESAState :=
  if devicedriver = "FSUP50" then
    match ctorFS with
    | (w, .ok d) => (w, .ok ⟨devicedriver, [], d⟩)
    | (w, .error e) => (w, .error e)
  else if devicedriver = "N9030A" then
    match ctorN9 with
    | (w, .ok d) => (w, .ok ⟨devicedriver, [], d⟩)
    | (w, .error e) => (w, .error e)
  else ([], .error .notImplementedError)

/-- src/ESA.py `__init__` (lines 75-93): the try-block above wrapped in the
blanket `except:` handler, which logs and re-raises every failure — the
internal `NotImplementedError` included — as the generic
`Exception("ImportError")`, discarding the original exception. -/
def facadeInit (devicedriver : String)
    (ctorFS ctorN9 : List SentCmd × Except PyError DriverHandle) :
    List SentCmd × Except PyError ESAState :=
  match initInner devicedriver ctorFS ctorN9 with
  | (w, .ok s) => (w, .ok s)
  | (w, .error _) => (w, .error .excImportError)

/-- src/ESA.py `reset` (lines 95-99): calls `self.devh.rst()` as a bare
statement — with the FSUP50 driver active this runs `FSUP50.rst`; the
method body then ends without `return`, so a normal completion returns
`None` and the handshake value is discarded. -/
def reset (t : MockEchoTransport) : MockEchoTransport × Except PyError PyValue :=
  match FSUP50.rst t with
  | (t1, .ok _) => (t1, .ok .none)
  | (t1, .error e) => (t1, .error e)

/-- The argument record of a driver-level marker-amplitude call:
`FSUP50.get_marker_amplitude(self)` takes no marker argument, while
`N9030A.get_marker_amplitude(self, marker)` takes the marker index. -/
inductive MarkerAmplitudeCall where
  | fsupNoMarker
  | n9030WithMarker (marker : ℤ)
  deriving DecidableEq, Repr

/-- src/ESA.py `get_marker_amplitude` (lines 169-174): branches on the
`devicedriver` string; for FSUP50 it calls the driver with no argument,
for N9030A it forwards the supplied marker index unchanged; any other
string falls off the end of the method (Python returns `None`). -/
def get_marker_amplitude (devicedriver : String) (marker : ℤ) :
    Option MarkerAmplitudeCall :=
  if devicedriver = "FSUP50" then some MarkerAmplitudeCall.fsupNoMarker
  else if devicedriver = "N9030A" then
    some (MarkerAmplitudeCall.n9030WithMarker marker)
  else Option.none

/-- Python attribute access on the driver instance without call
parentheses: `self.devh.get_resolution_bw` evaluates to the bound-method
object, not to a measurement value. -/
def attrGetResolutionBw (d : DriverKind) : PyValue :=
  .boundMethod (driverName d) "get_resolution_bw"

/-- src/ESA.py `get_resolution_bw` (lines 148-149): the body is
`return self.devh.get_resolution_bw` with no call parentheses, so the
facade returns the driver's bound-method object itself. -/
def get_resolution_bw (d : DriverKind) : PyValue :=
  attrGetResolutionBw d

/-- What actually invoking `FSUP50.get_resolution_bw()` (src/FSUP50.py
lines 168-169) would produce: it reads the `resolution_bw` property, whose
get path asks `BAND?` and parses the reply as a number. -/
def callGetResolutionBw (t : MockEchoTransport) :
    MockEchoTransport × Except PyError PyValue :=
  match FSUP50.resolution_bw.get t with
  | (t2, .ok q) => (t2, .ok (.num q))
  | (t2, .error e) => (t2, .error e)

/-- src/ESA.py `set_sweep_single` (lines 180-181): calls
`self.devh.set_sweep_single(value)` with one positional argument.  With the
FSUP50 driver active the callee signature `def set_sweep_single(self)`
declares zero parameters, so the call itself raises `TypeError` before the
body (and its transport write) runs. -/
def set_sweep_single_fsup (value : PyValue) (t : MockEchoTransport) :
    MockEchoTransport × Except PyError PyValue :=
  callPositional 0 1 FSUP50.set_sweep_single_body t

end ESA

/-! The facade as a state machine over its operations (FSUP50 driver
active), used to track the `last_measurement` mapping across any call
sequence. -/

/-- The full state of a constructed facade: the `last_measurement` mapping
and the device transport reached through `self.devh`. -/
structure ESAFullState where
  last_measurement : List (String × PyValue)
  dev : MockEchoTransport
  deriving DecidableEq, Repr

/-- One facade operation (a public method call on src/ESA.py, with the
FSUP50 driver active). -/
inductive FacadeOp where
  | reset
  | initDevice
  | setStartFrequency (v : ℚ)
  | getStartFrequency
  | setStopFrequency (v : ℚ)
  | getStopFrequency
  | setVideoBw (v : ℚ)
  | getVideoBw
  | setResolutionBw (v : ℚ)
  | getResolutionBw
  | setCenterFrequency (v : ℚ)
  | setSpanFrequency (v : ℚ)
  | getMarkerFrequency
  | getMarkerAmplitude (marker : ℤ)
  | getSweeptime
  | setSweepSingle (v : PyValue)
  | setMoveMarkerPeak
  | getStatus
  deriving DecidableEq, Repr

namespace ESA

/-- Effect of each facade method on the facade state, translated from
src/ESA.py: every method only forwards to the driver (touching the
transport); none of them assigns to `self.last_measurement`. -/
def step (s : ESAFullState) (op : FacadeOp) : ESAFullState :=
  match op with
  | .reset => { s with dev := (ESA.reset s.dev).1 }
  | .initDevice => { s with dev := (FSUP50.set_start_frequency s.dev 10).1 }
  | .setStartFrequency v => { s with dev := (FSUP50.set_start_frequency s.dev v).1 }
  | .getStartFrequency => { s with dev := (FSUP50.get_start_frequency s.dev).1 }
  | .setStopFrequency v => { s with dev := (FSUP50.stop_frequency.set s.dev v).1 }
  | .getStopFrequency => { s with dev := (FSUP50.stop_frequency.get s.dev).1 }
  | .setVideoBw v => { s with dev := (FSUP50.video_bw.set s.dev v).1 }
  | .getVideoBw => { s with dev := (FSUP50.video_bw.get s.dev).1 }
  | .setResolutionBw v => { s with dev := (FSUP50.resolution_bw.set s.dev v).1 }
  | .getResolutionBw => s
  | .setCenterFrequency v => { s with dev := FSUP50.set_center_frequency s.dev v }
  | .setSpanFrequency v => { s with dev := FSUP50.set_span_frequency s.dev v }
  | .getMarkerFrequency => { s with dev := (FSUP50.get_marker_frequency s.dev).2 }
  | .getMarkerAmplitude _ => { s with dev := (FSUP50.get_marker_amplitude s.dev).2 }
  | .getSweeptime => { s with dev := (FSUP50.get_sweeptime s.dev).2 }
  | .setSweepSingle v => { s with dev := (ESA.set_sweep_single_fsup v s.dev).1 }
  | .setMoveMarkerPeak => { s with dev := FSUP50.set_move_marker_peak s.dev }
  | .getStatus => s

/-- Running a sequence of facade operations from a given state. -/
def run (s : ESAFullState) (ops : List FacadeOp) : ESAFullState :=
  ops.foldl step s

/-- src/ESA.py `get_status` (lines 232-242): returns `self.last_measurement`
as-is. -/
def get_status (s : ESAFullState) : List (String × PyValue) :=
  s.last_measurement

/-- The facade state right after construction: `last_measurement`
initialised to the empty mapping (src/ESA.py line 70). -/
def startState (dev : MockEchoTransport) : ESAFullState :=
  ⟨[], dev⟩

end ESA

/-- A concrete successfully-constructed driver handle, used as the outcome
of a driver constructor that does not raise. -/
def dummyHandle : DriverHandle :=
  .fsup ⟨"Vendor", "Model", "SN123", "1.02"⟩

/-! Theorems. -/

/-- C1: for every value outside the declared legal range `[0, 50e9]` of the
FSUP50 `start_frequency` property under the `strict_range` validator,
setting the property fails with the validation error and the transport is
left untouched — zero write calls are made. -/
theorem start_frequency_set_out_of_range_rejected
    (t : MockEchoTransport) (v : ℚ) (h : v < 0 ∨ 50000000000 < v) :
    FSUP50.set_start_frequency t v = (t, .error .validationError) ∧
      (FSUP50.set_start_frequency t v).1.writes = t.writes := by
  have hcond : ¬ (min (0:ℚ) 50000000000 ≤ v ∧ v ≤ max (0:ℚ) 50000000000) := by
    rintro ⟨h1, h2⟩
    rw [min_eq_left (by norm_num : (0:ℚ) ≤ 50000000000)] at h1
    rw [max_eq_right (by norm_num : (0:ℚ) ≤ 50000000000)] at h2
    rcases h with h | h
    · linarith
    · linarith
  have hval : strict_range v [0, 50000000000] = .error .validationError := by
    simp only [strict_range, List.foldl]
    rw [if_neg hcond]
  have hset : FSUP50.set_start_frequency t v = (t, .error .validationError) := by
    simp [FSUP50.set_start_frequency, Control.set, FSUP50.start_frequency, hval]
  exact ⟨hset, by rw [hset]⟩

/-- Witness for C1 at the concrete out-of-range value -1. -/
theorem start_frequency_set_out_of_range_rejected_witness :
    ((-1 : ℚ) < 0 ∨ (50000000000 : ℚ) < -1) ∧
      (FSUP50.set_start_frequency MockEchoTransport.start (-1) =
        (MockEchoTransport.start, .error .validationError) ∧
        (FSUP50.set_start_frequency MockEchoTransport.start (-1)).1.writes =
          MockEchoTransport.start.writes) :=
  ⟨Or.inl (by norm_num),
    start_frequency_set_out_of_range_rejected MockEchoTransport.start (-1)
      (Or.inl (by norm_num))⟩

/-- C2: for every value inside the declared range `[0, 50e9]`, setting the
FSUP50 start frequency succeeds, writes the `FREQ:STAR %f` command (followed
by the completion-wait query, since the property declares `set_wait`), and a
subsequent get through `FREQ:STAR?` against the echoing mock transport
returns the set value up to the six-decimal `%f` formatting tolerance. -/
theorem start_frequency_roundtrip (t : MockEchoTransport) (v : ℚ)
    (h0 : 0 ≤ v) (h1 : v ≤ 50000000000) :
    (FSUP50.set_start_frequency t v).2 = .ok () ∧
    (FSUP50.set_start_frequency t v).1.writes =
      t.writes ++ [.fmtF FSUP50_START_FREQUENCY_SET v, .raw FSUP50_WAIT_TO_COMPLETE] ∧
    ∃ w, (FSUP50.get_start_frequency (FSUP50.set_start_frequency t v).1).2 = .ok w ∧
      |w - v| ≤ 1 / 2000000 := by
  have hval : strict_range v [0, 50000000000] = .ok v := by
    simp only [strict_range, List.foldl]
    rw [if_pos]
    constructor
    · rw [min_eq_left (by norm_num : (0:ℚ) ≤ 50000000000)]; exact h0
    · rw [max_eq_right (by norm_num : (0:ℚ) ≤ 50000000000)]; exact h1
  have hset : FSUP50.set_start_frequency t v =
      (⟨some (fmt6 v),
        t.writes ++ [.fmtF FSUP50_START_FREQUENCY_SET v, .raw FSUP50_WAIT_TO_COMPLETE]⟩,
       .ok ()) := by
    simp [FSUP50.set_start_frequency, Control.set, FSUP50.start_frequency, hval,
      MockEchoTransport.write, MockEchoTransport.ask]
  refine ⟨by rw [hset], by rw [hset], ⟨fmt6 v, ?_, ?_⟩⟩
  · rw [hset]
    simp [FSUP50.get_start_frequency, Control.get, MockEchoTransport.ask]
  · have key : fmt6 v - v = (((round (v * 1000000) : ℤ) : ℚ) - v * 1000000) / 1000000 := by
      unfold fmt6; ring
    have hb : |v * 1000000 - ((round (v * 1000000) : ℤ) : ℚ)| ≤ 1 / 2 :=
      abs_sub_round (v * 1000000)
    rw [abs_sub_comm] at hb
    rw [key, abs_div, abs_of_pos (by norm_num : (0:ℚ) < 1000000)]
    linarith

/-- Witness for C2 at the concrete in-range value 10 on a fresh transport. -/
theorem start_frequency_roundtrip_witness :
    ((0 : ℚ) ≤ 10 ∧ (10 : ℚ) ≤ 50000000000) ∧
      ((FSUP50.set_start_frequency MockEchoTransport.start 10).2 = .ok () ∧
      (FSUP50.set_start_frequency MockEchoTransport.start 10).1.writes =
        MockEchoTransport.start.writes ++
          [.fmtF FSUP50_START_FREQUENCY_SET 10, .raw FSUP50_WAIT_TO_COMPLETE] ∧
      ∃ w, (FSUP50.get_start_frequency
              (FSUP50.set_start_frequency MockEchoTransport.start 10).1).2 = .ok w ∧
        |w - 10| ≤ 1 / 2000000) :=
  ⟨⟨by norm_num, by norm_num⟩,
    start_frequency_roundtrip MockEchoTransport.start 10 (by norm_num) (by norm_num)⟩

/-- C3: the reset path does NOT behave as claimed.  `FSUP50.rst` writes the
reset command `*RST\n` and then calls `time.sleep` with the *string*
constant `*OPC?\n` as its argument, which raises `TypeError`; the
completion-wait query is therefore never sent.  The write trace grows by
exactly the reset command and the call errors. -/
theorem rst_writes_only_reset_then_typeerror (t : MockEchoTransport) :
    (FSUP50.rst t).1.writes = t.writes ++ [.raw FSUP50_RESET] ∧
      (FSUP50.rst t).2 = .error .typeError := by
  constructor <;>
    simp [FSUP50.rst, sleep, MockEchoTransport.write]

/-- C4: `ESA.reset` never returns the completion-wait handshake result.
With the FSUP50 driver active, `devh.rst()` raises `TypeError` at the
`sleep` call, so `reset()` propagates that error instead of returning 0 or
a non-zero handshake value.  (Even absent that failure, `wait_to_complete`
ends in a bare `return`, i.e. `None`, and `ESA.reset` discards `rst`'s
value, its own body ending without `return`.) -/
theorem esa_reset_raises_typeerror (t : MockEchoTransport) :
    (ESA.reset t).2 = .error .typeError ∧
      ∀ q : ℚ, (ESA.reset t).2 ≠ .ok (.num q) := by
  have h : (ESA.reset t).2 = .error .typeError := by
    simp [ESA.reset, FSUP50.rst, sleep]
  exact ⟨h, fun q hq => by rw [h] at hq; exact Except.noConfusion hq⟩

/-- C5, counterexample: facade construction with the unrecognized name
`UnknownModel` and facade construction whose FSUP50 driver constructor
itself raises both fail with the *same* generic `Exception("ImportError")`;
there is no distinct unsupported-driver error and the underlying cause
(here a `TypeError`) is not wrapped — it is discarded by the blanket
handler. -/
theorem esa_init_errors_indistinguishable :
    ESA.facadeInit "UnknownModel" ([], .ok dummyHandle) ([], .ok dummyHandle) =
      ([], .error .excImportError) ∧
    ESA.facadeInit "FSUP50" ([], .error .typeError) ([], .ok dummyHandle) =
      ([], .error .excImportError) ∧
    (ESA.facadeInit "UnknownModel" ([], .ok dummyHandle) ([], .ok dummyHandle)).2 =
      (ESA.facadeInit "FSUP50" ([], .error .typeError) ([], .ok dummyHandle)).2 := by
  refine ⟨rfl, rfl, rfl⟩

/-- C5, amended: construction with an unrecognized devicedriver name fails
(the internal `NotImplementedError` is re-raised by the blanket handler as
the generic `Exception("ImportError")`) and performs no transport I/O; when
the named driver's own construction raises, facade construction fails with
that same generic exception, without wrapping the underlying cause. -/
theorem esa_init_unrecognized_fails_no_io (dd : String)
    (h : dd ≠ "FSUP50" ∧ dd ≠ "N9030A")
    (ctorFS ctorN9 : List SentCmd × Except PyError DriverHandle) :
    ESA.facadeInit dd ctorFS ctorN9 = ([], .error .excImportError) ∧
    ∀ (w : List SentCmd) (e : PyError),
      (ESA.facadeInit "FSUP50" (w, .error e) ctorN9).2 = .error .excImportError := by
  constructor
  · simp [ESA.facadeInit, ESA.initInner, h.1, h.2]
  · intro w e
    simp [ESA.facadeInit, ESA.initInner]

/-- Witness for the amended C5 at the concrete name `UnknownModel`. -/
theorem esa_init_unrecognized_fails_no_io_witness :
    ("UnknownModel" ≠ "FSUP50" ∧ "UnknownModel" ≠ "N9030A") ∧
    (ESA.facadeInit "UnknownModel" ([], .ok dummyHandle) ([], .ok dummyHandle) =
        ([], .error .excImportError) ∧
      ∀ (w : List SentCmd) (e : PyError),
        (ESA.facadeInit "FSUP50" (w, .error e) ([], .ok dummyHandle)).2 =
          .error .excImportError) :=
  ⟨⟨by decide, by decide⟩,
    esa_init_unrecognized_fails_no_io "UnknownModel" ⟨by decide, by decide⟩
      ([], .ok dummyHandle) ([], .ok dummyHandle)⟩

/-- C6: the identity reply is split on commas into vendor, model, serial
and firmware — the reply `Vendor,Model,SN123,1.02` yields exactly those
four fields — and every reply with fewer than four comma-separated fields
makes construction fail (the field indexing raises, which is the
construction-time parse failure of the spec). -/
theorem identity_parse_fields_and_failure :
    FSUP50.driverInit "Vendor,Model,SN123,1.02" =
      .ok ⟨"Vendor", "Model", "SN123", "1.02"⟩ ∧
    ∀ s : String, (pySplit s).length < 4 →
      FSUP50.driverInit s = .error .indexError := by
  constructor
  · rfl
  · intro s hs
    rcases hf : pySplit s with _ | ⟨a, tl1⟩
    · simp [FSUP50.driverInit, hf]
    rcases tl1 with _ | ⟨b, tl2⟩
    · simp [FSUP50.driverInit, hf]
    rcases tl2 with _ | ⟨c, tl3⟩
    · simp [FSUP50.driverInit, hf]
    rcases tl3 with _ | ⟨d, tl4⟩
    · simp [FSUP50.driverInit, hf]
    · exfalso
      rw [hf] at hs
      simp only [List.length] at hs
      omega

/-- Witness for C6 at the concrete two-field reply `Vendor,Model`. -/
theorem identity_parse_fields_and_failure_witness :
    (pySplit "Vendor,Model").length < 4 ∧
      FSUP50.driverInit "Vendor,Model" = .error .indexError :=
  ⟨by decide, identity_parse_fields_and_failure.2 "Vendor,Model" (by decide)⟩

/-- C7: for every marker index, the facade's `get_marker_amplitude` ignores
the index and calls the FSUP50 driver with no marker argument when that
driver is active, and forwards the index unchanged to the N9030A driver
when that one is active. -/
theorem marker_amplitude_forwarding (m : ℤ) :
    ESA.get_marker_amplitude "FSUP50" m = some ESA.MarkerAmplitudeCall.fsupNoMarker ∧
    ESA.get_marker_amplitude "N9030A" m =
      some (ESA.MarkerAmplitudeCall.n9030WithMarker m) :=
  ⟨rfl, rfl⟩

/-- C8: for every facade instance, `get_resolution_bw` returns the
underlying driver's bound-method object itself — a callable — and never the
value that actually invoking the driver's `get_resolution_bw` would
produce (a number parsed from the `BAND?` reply). -/
theorem facade_resolution_bw_returns_method_object :
    (∀ d : DriverKind,
      ESA.get_resolution_bw d =
        PyValue.boundMethod (driverName d) "get_resolution_bw" ∧
      (ESA.get_resolution_bw d).isBoundMethod = true) ∧
    ∀ t : MockEchoTransport,
      (ESA.callGetResolutionBw t).2 ≠ .ok (ESA.get_resolution_bw DriverKind.fsup50) := by
  constructor
  · intro d
    exact ⟨rfl, rfl⟩
  · intro t hcontra
    unfold ESA.callGetResolutionBw at hcontra
    rcases hr : FSUP50.resolution_bw.get t with ⟨t2, r⟩
    rw [hr] at hcontra
    cases r with
    | ok q =>
      simp [ESA.get_resolution_bw, ESA.attrGetResolutionBw, driverName] at hcontra
    | error e =>
      simp at hcontra

/-- C9: for every value argument, calling the facade's `set_sweep_single`
with the FSUP50 driver active fails with `TypeError` — the facade passes one
positional argument to `FSUP50.set_sweep_single`, whose signature accepts
none — and nothing is written to the transport. -/
theorem facade_sweep_single_typeerror (v : PyValue) (t : MockEchoTransport) :
    (ESA.set_sweep_single_fsup v t).2 = .error .typeError ∧
      (ESA.set_sweep_single_fsup v t).1.writes = t.writes :=
  ⟨rfl, rfl⟩

/-- C10: no facade operation ever writes an entry into the
`last_measurement` mapping after it is initialised empty at construction,
so after every sequence of facade operations `get_status` returns the empty
mapping. -/
theorem last_measurement_stays_empty (dev : MockEchoTransport) (ops : List FacadeOp) :
    ESA.get_status (ESA.run (ESA.startState dev) ops) = [] := by
  have hstep : ∀ (s : ESAFullState) (op : FacadeOp),
      (ESA.step s op).last_measurement = s.last_measurement := by
    intro s op
    cases op <;> rfl
  have hrun : ∀ (l : List FacadeOp) (s : ESAFullState),
      (ESA.run s l).last_measurement = s.last_measurement := by
    intro l
    induction l with
    | nil => intro s; rfl
    | cons op tl ih =>
      intro s
      have hstep1 : ESA.run s (op :: tl) = ESA.run (ESA.step s op) tl := rfl
      rw [hstep1, ih, hstep]
  exact hrun ops (ESA.startState dev)

end Sytpy
